import Mathlib

/-!
Shallow embedding of the data-ingestion and figure-composition layer of the
libaccess plotting package (pltutils.py, genvar.py, genspc.py, canopy.py,
rxns.py, pall1t.py), together with theorems settling the specification
claims about it.

Modelling conventions:
* A text file is modelled after `readlines` + per-line `split()`: an
  `Option (List (List String))` — `none` when the file does not exist,
  otherwise the whitespace-separated tokens of each line (Python `split()`
  with no argument never produces empty tokens).
* Python exceptions are modelled by the `PyErr` type and fallible code by
  `Except PyErr`.
* Machine floats are modelled by `ℚ`; `float(...)` by `pyFloat`,
  `datetime.strptime(s, "%Y-%m-%d %H:%M:%S")` by `strptime17`,
  `datetime.strftime` for the same pattern by `strftime17`, and the
  builtins `min`/`max` over a sequence by `pyMin`/`pyMax`.
-/

deriving instance DecidableEq for Except

namespace LibAccess

/-- The Python exceptions that the embedded code can raise.
`fileNotFound` models `FileNotFoundError` (the spec's MissingFileError);
`indexError` and `valueError` model `IndexError` and `ValueError`
(together, the spec's MalformedRowError); `nameError` models `NameError`;
`zeroDivisionError` models `ZeroDivisionError` (from `m % 0`). -/
inductive PyErr where
  | fileNotFound
  | indexError
  | valueError
  | nameError
  | zeroDivisionError
deriving DecidableEq

/-- Numeric value of a decimal digit character. -/
def dval (c : Char) : Nat := c.toNat - 48

/-- Whether a character is a decimal digit. -/
def isDig (c : Char) : Bool := 48 ≤ c.toNat && c.toNat ≤ 57

/-- Value of a list of digit characters read in base 10. -/
def digitsToNat (cs : List Char) : Nat :=
  cs.foldl (fun a c => a * 10 + dval c) 0

/-- A nonempty all-digit character list. -/
def allDigits (cs : List Char) : Bool := cs.all isDig

/-- Models Python `float(s)` on decimal literals: optional sign, an integer
and/or fractional digit part separated by a dot, and an optional decimal
exponent.  Returns `none` when `float` would raise `ValueError`. -/
def pyFloat (s : String) : Option ℚ :=
  let cs := s.toList
  let (sgn, cs) : ℚ × List Char :=
    match cs with
    | '-' :: rest => (-1, rest)
    | '+' :: rest => (1, rest)
    | _ => (1, cs)
  let cs := cs.map (fun c => if c = 'E' then 'e' else c)
  let parseMant : List Char → Option ℚ := fun m =>
    match m.splitOn '.' with
    | [i] => if allDigits i && !i.isEmpty then some (digitsToNat i) else none
    | [i, f] =>
        if allDigits i && allDigits f && !(i.isEmpty && f.isEmpty) then
          some ((digitsToNat i : ℚ) + (digitsToNat f : ℚ) / (10 : ℚ) ^ f.length)
        else none
    | _ => none
  let parseExp : List Char → Option ℤ := fun e =>
    match e with
    | '-' :: ds => if allDigits ds && !ds.isEmpty then some (-(digitsToNat ds : ℤ)) else none
    | '+' :: ds => if allDigits ds && !ds.isEmpty then some (digitsToNat ds) else none
    | ds => if allDigits ds && !ds.isEmpty then some (digitsToNat ds) else none
  match cs.splitOn 'e' with
  | [m] => (parseMant m).map (fun q => sgn * q)
  | [m, e] => do
      let q ← parseMant m
      let x ← parseExp e
      pure (sgn * q * (10 : ℚ) ^ x)
  | _ => none

/-- A parsed timestamp, as produced by `datetime.strptime`. -/
structure DT where
  year : Nat
  month : Nat
  day : Nat
  hour : Nat
  minute : Nat
  second : Nat
deriving DecidableEq

/-- Whether a year is a Gregorian leap year. -/
def isLeap (y : Nat) : Bool := (y % 4 = 0 && y % 100 ≠ 0) || y % 400 = 0

/-- Number of days in a month of a given year. -/
def daysInMonth (y mo : Nat) : Nat :=
  if mo = 2 then (if isLeap y then 29 else 28)
  else if mo = 4 || mo = 6 || mo = 9 || mo = 11 then 30
  else 31

/-- Models `datetime.strptime(s, "%Y-%m-%d %H:%M:%S")`: the fixed 19-character
pattern with zero-padded fields and calendar validation.  Returns `none`
when `strptime` would raise `ValueError`. -/
def strptime17 (s : String) : Option DT :=
  match s.toList with
  | [y1, y2, y3, y4, c1, mo1, mo2, c2, d1, d2, c3, h1, h2, c4, n1, n2, c5, s1, s2] =>
      if c1 = '-' && c2 = '-' && c3 = ' ' && c4 = ':' && c5 = ':' &&
         allDigits [y1, y2, y3, y4] && allDigits [mo1, mo2] && allDigits [d1, d2] &&
         allDigits [h1, h2] && allDigits [n1, n2] && allDigits [s1, s2] then
        let y := digitsToNat [y1, y2, y3, y4]
        let mo := digitsToNat [mo1, mo2]
        let d := digitsToNat [d1, d2]
        let h := digitsToNat [h1, h2]
        let n := digitsToNat [n1, n2]
        let sec := digitsToNat [s1, s2]
        if 1 ≤ y && 1 ≤ mo && mo ≤ 12 && 1 ≤ d && d ≤ daysInMonth y mo &&
           h ≤ 23 && n ≤ 59 && sec ≤ 59 then
          some ⟨y, mo, d, h, n, sec⟩
        else none
      else none
  | _ => none

/-- Zero-pads a number to two characters. -/
def pad2 (n : Nat) : String := if n < 10 then "0" ++ toString n else toString n

/-- Zero-pads a number to four characters. -/
def pad4 (n : Nat) : String :=
  if n < 10 then "000" ++ toString n
  else if n < 100 then "00" ++ toString n
  else if n < 1000 then "0" ++ toString n
  else toString n

/-- Models `datetime.strftime(dt, "%Y-%m-%d %H:%M:%S")`. -/
def strftime17 (t : DT) : String :=
  pad4 t.year ++ "-" ++ pad2 t.month ++ "-" ++ pad2 t.day ++ " " ++
    pad2 t.hour ++ ":" ++ pad2 t.minute ++ ":" ++ pad2 t.second


/-! ## TableReader and TimeKeyReader (pltutils.py) -/

/-- One row of `timekeys` (pltutils.py, lines 92-98): `data = line.split()`,
`date = data[1]`, `time = data[2]`, parse `date+" "+time`, keep `time[0:5]`
as the hour label. -/
def tkRow (data : List String) : Except PyErr (DT × String) :=
  match data[1]? with
  | none => .error .indexError
  | some date =>
    match data[2]? with
    | none => .error .indexError
    | some time =>
      match strptime17 (date ++ " " ++ time) with
      | none => .error .valueError
      | some t => .ok (t, time.take 5)

/-- Sequential processing of the non-header lines of the time-key file. -/
def tkRows : List (List String) → Except PyErr (List (DT × String))
  | [] => .ok []
  | r :: rs => do
    let p ← tkRow r
    let ps ← tkRows rs
    .ok (p :: ps)

/-- `timekeys(simname)` (pltutils.py, lines 72-100): opens
`<sim>/ACCESS_timekey.dat` (raising `FileNotFoundError` when absent), skips
the header line, and returns the parsed datetimes and `HH:MM` labels. -/
def timekeys (file : Option (List (List String))) : Except PyErr (List DT × List String) :=
  match file with
  | none => .error .fileNotFound
  | some lines =>
    (tkRows (lines.drop 1)).map (fun ps => (ps.map Prod.fst, ps.map Prod.snd))

/-- Name resolution for the Python expression `x` inside a function body:
loading a name succeeds when it is a parameter or assigned local of the
function, or a module-level global; otherwise `NameError` is raised. -/
def loadName (localNames globalNames : List String) (n : String) : Except PyErr Unit :=
  if n ∈ localNames || n ∈ globalNames then .ok () else .error .nameError

/-- Names bound in the body of `getspunits` (pltutils.py, lines 102-123):
the parameter, the file bookkeeping, the loop variable contents and the
accumulator `pppbs`.  The name `ppbvs` is never assigned. -/
def getspunitsLocals : List String :=
  ["simname", "fnsp", "fhsp", "lines", "line", "data", "pppbs"]

/-- Module-level names of pltutils.py. -/
def pltutilsGlobals : List String :=
  ["os", "use", "plt", "np", "sns", "datetime",
   "setstdfmts", "pltoutput", "timekeys", "getspunits", "get1Dvar", "get0Dvar"]

/-- `getspunits(simname)` (pltutils.py, lines 102-123): opens
`<sim>/ACCESS_ppbv.dat`, skips the header, initializes the accumulator under
the name `pppbs`, but the loop body executes `ppbvs.append(data[1])` and the
final statement is `return ppbvs` — both load the unbound name `ppbvs`. -/
def getspunits (file : Option (List (List String))) : Except PyErr (List String) :=
  match file with
  | none => .error .fileNotFound
  | some lines => do
    let rest := lines.drop 1
    let ps ← rest.foldlM (fun (acc : List String) (data : List String) => do
        let _ ← loadName getspunitsLocals pltutilsGlobals "ppbvs"
        match data[1]? with
        | none => Except.error PyErr.indexError
        | some s => Except.ok (acc ++ [s]))
      ([] : List String)
    let _ ← loadName getspunitsLocals pltutilsGlobals "ppbvs"
    .ok ps

/-- The inner loop of `get1Dvar` (pltutils.py, lines 154-158): writes the
parsed data tokens of one row into the zero-initialized numpy row `arr` of
width `nts` at successive positions `m`; `float(value)` is evaluated before
the assignment `var[k, m] = ...`, and an assignment past the row width
raises `IndexError`. -/
def fillRow (nts : Nat) : List String → Nat → List ℚ → Except PyErr (List ℚ)
  | [], _, arr => .ok arr
  | v :: vs, m, arr =>
    match pyFloat v with
    | none => .error .valueError
    | some q =>
      if nts ≤ m then .error .indexError
      else fillRow nts vs (m + 1) (arr.set m q)

/-- One data row of `get1Dvar`: `z[k] = float(data[0])`, then the remaining
tokens are written into a fresh zero row of width `nts`. -/
def parseRow (nts : Nat) (data : List String) : Except PyErr (ℚ × List ℚ) :=
  match data with
  | [] => .error .indexError
  | d0 :: rest =>
    match pyFloat d0 with
    | none => .error .valueError
    | some zk => (fillRow nts rest 0 (List.replicate nts 0)).map (fun row => (zk, row))

/-- Sequential processing of the data rows of a profile file. -/
def parseRows (nts : Nat) : List (List String) → Except PyErr (List (ℚ × List ℚ))
  | [] => .ok []
  | r :: rs => do
    let p ← parseRow nts r
    let ps ← parseRows nts rs
    .ok (p :: ps)

/-- A numpy 2-D array of shape `(rows.length, ncols)`. -/
structure NpMat where
  ncols : Nat
  rows : List (List ℚ)
deriving DecidableEq

/-- `get1Dvar(simname, dirname, varname)` (pltutils.py, lines 125-161):
opens `<sim>/<dir>/<var>.dat` (`FileNotFoundError` when absent); the header
token count minus one gives the time width `nts` (`lines[0]` of an empty
file raises `IndexError`); each remaining row yields one height value and
one zero-initialized data row filled by `fillRow`. -/
def get1Dvar (file : Option (List (List String))) : Except PyErr (List ℚ × NpMat) :=
  match file with
  | none => .error .fileNotFound
  | some [] => .error .indexError
  | some (header :: rest) =>
    let nts := header.length - 1
    (parseRows nts rest).map
      (fun ps => (ps.map Prod.fst, ⟨nts, ps.map Prod.snd⟩))

/-- Column `j` of a numpy matrix, i.e. `var[:, j]`; an index at or past the
column count raises `IndexError`. -/
def npcol (A : NpMat) (j : Nat) : Except PyErr (List ℚ) :=
  if j < A.ncols then .ok (A.rows.map (fun r => r.getD j 0))
  else .error .indexError

/-- The Python builtin `min` over a sequence (`ValueError` when empty). -/
def pyMin (l : List ℚ) : Except PyErr ℚ :=
  match l.min? with
  | none => .error .valueError
  | some x => .ok x

/-- The Python builtin `max` over a sequence (`ValueError` when empty). -/
def pyMax (l : List ℚ) : Except PyErr ℚ :=
  match l.max? with
  | none => .error .valueError
  | some x => .ok x

/-- `pltoutput(simname, varname, outtype)` (pltutils.py, lines 47-70),
reduced to the artifact it produces: the written file path for `pdf`/`png`,
or an interactive display otherwise. -/
def pltoutputPath (simname varname outtype : String) : String :=
  if outtype = "pdf" then "img/" ++ simname ++ "_" ++ varname ++ ".pdf"
  else if outtype = "png" then "img/" ++ simname ++ "_" ++ varname ++ ".png"
  else "x11 display"

/-! ## ColorCycle and the shared profile-panel loop
(genvar.py, genspc.py, canopy.py, rxns.py) -/

/-- The fixed 10-color palette declared identically at module level in
genvar.py (line 16), genspc.py, canopy.py, rxns.py and pall1t.py. -/
def colors : List String :=
  ["gray", "peru", "brown", "red", "royalblue", "green", "violet", "magenta", "cyan", "olive"]

/-- One rendered series of a profile panel: its time-step ordinal, its hour
label `hrs[m]`, and the palette index `ic` passed to `plt.plot` as
`colors[ic]`. -/
structure Series where
  ordinal : Nat
  label : String
  colorIdx : Nat
deriving DecidableEq

/-- The profile-panel loop shared verbatim by `plotprofs1/2/3` (genvar.py,
lines 64-71), `plotprofs` (genspc.py and rxns.py) and `plotall3`
(canopy.py, lines 104-110), over the remaining ordinals `ms` with current
color cursor `ic`: ordinals with `m % intdt == 0` are rendered with label
`hrs[m]` and color `colors[ic]`, after which the cursor advances, wrapping
to 0 past the end of the palette; `m % 0` raises `ZeroDivisionError`. -/
def renderLoop (hrs : List String) (intdt : Nat) : List Nat → Nat → Except PyErr (List Series)
  | [], _ => .ok []
  | m :: ms, ic =>
    if intdt = 0 then .error .zeroDivisionError
    else if m % intdt = 0 then
      match hrs[m]? with
      | none => .error .indexError
      | some lab =>
        (renderLoop hrs intdt ms (if colors.length - 1 < ic + 1 then 0 else ic + 1)).map
          (fun rest => ⟨m, lab, ic⟩ :: rest)
    else renderLoop hrs intdt ms ic

/-- One profile panel: the loop `for m in range(nts)` started with a fresh
color cursor `ic = 0`. -/
def renderSeries (hrs : List String) (nts intdt : Nat) : Except PyErr (List Series) :=
  renderLoop hrs intdt (List.range nts) 0

/-- The observable result of a one-panel profile figure: the rendered
series, the `plt.ylim` pair, the `plt.xlim` pair when one is set, and the
artifacts emitted by `pltoutput`. -/
structure Fig1 where
  rendered : List Series
  ylim : ℚ × ℚ
  xlim : Option (ℚ × ℚ)
  outputs : List String
deriving DecidableEq

/-- `plotprofs1` (genvar.py, lines 35-90): reads the time keys and the
variable table, renders one panel sampled at `intdt`, and sets
`plt.ylim(-0.1, htop)` — the caller's `htop` is used verbatim, with no
sentinel handling; no x-limit is set; the figure goes to `pltoutput`. -/
def genvar_plotprofs1 (tkfile varfile : Option (List (List String)))
    (simname outfn outtype : String) (intdt : Nat) (htop : ℚ) :
    Except PyErr Fig1 := do
  let tk ← timekeys tkfile
  let hrs := tk.2
  let zv ← get1Dvar varfile
  let nts := zv.2.ncols
  let rend ← renderSeries hrs nts intdt
  .ok ⟨rend, ((-0.1 : ℚ), htop), none, [pltoutputPath simname outfn outtype]⟩

/-- The axis-limit block of `plotprofs` (genspc.py, lines 75-81):
`if (zmax == -1.): zmax = z[nz-1]` then `plt.ylim(-0.1, zmax)`; `z[nz-1]`
on an empty coordinate raises `IndexError`. -/
def genspc_ylim (z : List ℚ) (zmax : ℚ) : Except PyErr (ℚ × ℚ) :=
  if zmax = -1 then
    match z[z.length - 1]? with
    | none => .error .indexError
    | some zl => .ok ((-0.1 : ℚ), zl)
  else .ok ((-0.1 : ℚ), zmax)

/-- `plotprofs` (genspc.py, lines 35-103): reads the time keys and the
species table, renders one panel sampled at `intdt`, resolves the y-limits
through the `-1` sentinel on `zmax`, and sets `plt.xlim(-0.1, xmax)` only
when `xmax` is not the `-1` sentinel. -/
def genspc_plotprofs (tkfile varfile : Option (List (List String)))
    (simname outfn outtype : String) (intdt : Nat) (zmax xmax hc : ℚ) :
    Except PyErr Fig1 := do
  let tk ← timekeys tkfile
  let hrs := tk.2
  let zv ← get1Dvar varfile
  let z := zv.1
  let nts := zv.2.ncols
  let rend ← renderSeries hrs nts intdt
  let yl ← genspc_ylim z zmax
  let xl := if xmax ≠ -1 then some ((-0.1 : ℚ), xmax) else none
  .ok ⟨rend, yl, xl, [pltoutputPath simname outfn outtype]⟩

/-! ## The reaction-profile entry point (rxns.py) -/

/-- Names bound in the body of `plotprofs` (rxns.py, lines 35-110): the
eight parameters and every local assigned anywhere in the body.  The name
`spcname` used at line 97 is not among them. -/
def rxnsLocals : List String :=
  ["simname", "dirname", "rxnnum", "outtype", "intdt", "zmax", "xmax", "hc",
   "dts", "hrs", "srxnnum", "z", "var", "nts", "fig", "ax", "ic", "m",
   "labstr", "nz", "ahc", "xbnds", "varunits", "vartitle", "outfn"]

/-- Module-level names of rxns.py. -/
def rxnsGlobals : List String :=
  ["os", "use", "plt", "np", "sns", "pltoutput", "timekeys", "get1Dvar",
   "setstdfmts", "colors", "tfsize", "tyloc", "lfsize", "yfsize", "ylabpad",
   "xfsize", "xlabpad", "tlmaj", "tlmin", "tlbsize", "tlbpad", "lnwdth",
   "plotprofs"]

/-- Python `str(n).zfill(5)` for a natural number. -/
def zfill5 (n : Nat) : String :=
  let s := toString n
  let k := 5 - s.length
  String.mk (List.replicate k '0') ++ s

/-- `plotprofs` (rxns.py, lines 35-110): reads the time keys and the
reaction table `rxn<num zero-padded to 5>`, renders one sampled panel,
resolves the `-1` sentinels for `zmax`/`xmax`, chooses units and titles by
`dirname`, and then executes `plt.xlabel(spcname+"-"+varunits)` — which
loads the name `spcname`, bound nowhere in rxns.py; only after that would
`pltoutput` emit the figure. -/
def rxns_plotprofs (tkfile varfile : Option (List (List String)))
    (simname dirname : String) (rxnnum : Nat) (outtype : String)
    (intdt : Nat) (zmax xmax hc : ℚ) : Except PyErr Fig1 := do
  let tk ← timekeys tkfile
  let hrs := tk.2
  let srxnnum := "rxn" ++ zfill5 rxnnum
  let _ := srxnnum
  let zv ← get1Dvar varfile
  let z := zv.1
  let nts := zv.2.ncols
  let rend ← renderSeries hrs nts intdt
  let zmax1 ← if zmax = -1 then
      match z[z.length - 1]? with
      | none => Except.error PyErr.indexError
      | some zl => Except.ok zl
    else Except.ok zmax
  let yl := ((-0.1 : ℚ), zmax1)
  let xl := if xmax ≠ -1 then some ((-0.1 : ℚ), xmax) else none
  let outfn := if dirname = "rates" then "rates" else "ks"
  let _ ← loadName rxnsLocals rxnsGlobals "spcname"
  .ok ⟨rend, yl, xl, [pltoutputPath simname outfn outtype]⟩

/-! ## The 10-panel dashboard (pall1t.py) -/

/-- The `datetimes` list of `pltall1t` (pall1t.py, lines 52-54): each
parsed timestamp re-rendered through `strftime`. -/
def pall1t_datetimes (dts : List DT) : List String := dts.map strftime17

/-- The shared figure title of `pltall1t` (pall1t.py, line 285):
`plt.suptitle(simname+" - "+datetimes[tslice], ...)`; an out-of-range
`tslice` raises `IndexError`. -/
def pall1t_suptitle (simname : String) (dts : List DT) (tslice : Nat) :
    Except PyErr String :=
  match (pall1t_datetimes dts)[tslice]? with
  | none => .error .indexError
  | some stamp => .ok (simname ++ " - " ++ stamp)

/-- The data selection of every variable panel of `pltall1t` (pall1t.py,
lines 56-142): column `tslice-1` of the variable table, e.g.
`atair[:, tslice-1]`. -/
def pall1t_sliceCol (A : NpMat) (tslice : Nat) : Except PyErr (List ℚ) :=
  npcol A (tslice - 1)

/-- The absorbed-radiation window of `pltall1t` (pall1t.py, lines 195-208):
`radif = rasun+rashd`; rows with `clai[i] > 0` contribute `0.5*radif[i]` to
`sumra` and are counted by `nra`; `ramean = sumra/nra` (or 0 when no row
qualifies); `drx = max(50.0, 0.1*ramean)`; the x-limits are
`(ramean-drx, ramean+drx)`. -/
def pall1t_radWindow (rasun rashd clai : List ℚ) : ℚ × ℚ :=
  let radif := List.zipWith (fun a b => a + b) rasun rashd
  let sel := (clai.zip radif).filter (fun p => decide (0 < p.1))
  let sumra := (sel.map (fun p => (0.5 : ℚ) * p.2)).sum
  let nra := sel.length
  let ramean := if 0 < nra then sumra / (nra : ℚ) else 0
  let drx := max (50 : ℚ) ((0.1 : ℚ) * ramean)
  (ramean - drx, ramean + drx)

/-- The temperature window of `pltall1t` (pall1t.py, lines 58, 122, 126 and
216-225), starting from the raw Kelvin columns at the chosen slice:
`tair`, `tlsun`, `tlshd` are the columns minus 273.15; the x-limits are
`(min(tair)-dtx, max(tair)+dtx)` with
`dtx = max(5.0, max(abs(tlsun-tlshd)))`. -/
def pall1t_tempWindow (atairCol atlsunCol atlshdCol : List ℚ) :
    Except PyErr (ℚ × ℚ) := do
  let tair := atairCol.map (fun x => x - (273.15 : ℚ))
  let tlsun := atlsunCol.map (fun x => x - (273.15 : ℚ))
  let tlshd := atlshdCol.map (fun x => x - (273.15 : ℚ))
  let tamin ← pyMin tair
  let tamax ← pyMax tair
  let tdif := List.zipWith (fun a b => a - b) tlsun tlshd
  let dtx0 ← pyMax (tdif.map (fun x => |x|))
  let dtx := max (5 : ℚ) dtx0
  .ok (tamin - dtx, tamax + dtx)



/-! ## Lemmas about the shared panel loop -/

lemma colors_length : colors.length = 10 := rfl

lemma cursor_step (ic : Nat) (h : ic < 10) :
    (if colors.length - 1 < ic + 1 then 0 else ic + 1) = (ic + 1) % 10 := by
  have h9 : colors.length - 1 = 9 := rfl
  rw [h9]
  split <;> omega

lemma renderLoop_spec (hrs : List String) (k : Nat) (hk : k ≠ 0) (ms : List Nat) :
    ∀ ic : Nat, ic < 10 → (∀ m ∈ ms, m % k = 0 → m < hrs.length) →
    ∃ out, renderLoop hrs k ms ic = .ok out ∧
      out.map Series.ordinal = ms.filter (fun m => m % k == 0) ∧
      out.map Series.colorIdx = (List.range out.length).map (fun j => (ic + j) % 10) := by
  induction ms with
  | nil => exact fun ic _ _ => ⟨[], rfl, by simp, by simp⟩
  | cons m ms ih =>
    intro ic hic hcov
    by_cases hm : m % k = 0
    · have hlt : m < hrs.length := hcov m (by simp) hm
      obtain ⟨lab, hlab⟩ : ∃ lab, hrs[m]? = some lab :=
        ⟨hrs[m], List.getElem?_eq_getElem hlt⟩
      have hic' : (ic + 1) % 10 < 10 := Nat.mod_lt _ (by omega)
      obtain ⟨out, hout, hord, hcol⟩ :=
        ih ((ic + 1) % 10) hic' (fun x hx => hcov x (by simp [hx]))
      refine ⟨⟨m, lab, ic⟩ :: out, ?_, ?_, ?_⟩
      · simp only [renderLoop, if_neg hk, if_pos hm, hlab, cursor_step ic hic, hout,
          Except.map]
      · simpa [hm] using hord
      · simp only [List.map_cons, List.length_cons, hcol, List.range_succ_eq_map,
          List.map_map]
        refine List.cons_eq_cons.mpr ⟨by omega, ?_⟩
        refine List.map_congr_left (fun j _ => ?_)
        simp only [Function.comp]
        omega
    · obtain ⟨out, hout, hord, hcol⟩ := ih ic hic (fun x hx => hcov x (by simp [hx]))
      refine ⟨out, ?_, ?_, hcol⟩
      · simp only [renderLoop, if_neg hk, if_neg hm, hout]
      · simpa [hm] using hord

lemma filter_multiples_of_ge (k nts : Nat) (h1 : 1 ≤ nts) (h2 : nts ≤ k) :
    (List.range nts).filter (fun m => m % k == 0) = [0] := by
  obtain ⟨n, rfl⟩ : ∃ n, nts = n + 1 := ⟨nts - 1, by omega⟩
  rw [List.range_succ_eq_map, List.filter_cons_of_pos (by simp)]
  have hnil : ((List.range n).map Nat.succ).filter (fun m => m % k == 0) = [] := by
    refine List.filter_eq_nil_iff.mpr (fun a ha => ?_)
    obtain ⟨i, hi, rfl⟩ := List.mem_map.mp ha
    have hin : i < n := List.mem_range.mp hi
    have hmod : i.succ % k = i.succ := Nat.mod_eq_of_lt (by omega)
    simp [hmod]
  rw [hnil]

/-- C6: For every profile panel with sampling interval `k ≥ 1` over `nts`
time steps (the loop shared verbatim by `plotprofs1/2/3` of genvar.py and
`plotall3` of canopy.py, here `renderSeries`), the rendered time-step
ordinals are exactly the multiples of `k` in `[0, nts)`; for `k = 1` every
step is rendered, and for `k ≥ nts ≥ 1` exactly the single ordinal 0 is
rendered.  The hypothesis `nts ≤ hrs.length` is the spec's TimeIndex
alignment invariant. -/
theorem renderSeries_sampling (hrs : List String) (nts k : Nat)
    (hk : 1 ≤ k) (hcov : nts ≤ hrs.length) :
    ∃ out, renderSeries hrs nts k = .ok out ∧
      (∀ m, m ∈ out.map Series.ordinal ↔ (k ∣ m ∧ m < nts)) ∧
      (k = 1 → out.map Series.ordinal = List.range nts) ∧
      (1 ≤ nts → nts ≤ k → out.map Series.ordinal = [0]) := by
  obtain ⟨out, hout, hord, _⟩ :=
    renderLoop_spec hrs k (by omega) (List.range nts) 0 (by omega)
      (fun m hm _ => lt_of_lt_of_le (List.mem_range.mp hm) hcov)
  refine ⟨out, hout, ?_, ?_, ?_⟩
  · intro m
    rw [hord, List.mem_filter, List.mem_range, Nat.dvd_iff_mod_eq_zero]
    simp [and_comm]
  · intro hk1
    subst hk1
    rw [hord]
    exact List.filter_eq_self.mpr (fun m _ => by simpa using Nat.mod_one m)
  · intro h1 h2
    rw [hord]
    exact filter_multiples_of_ge k nts h1 h2

/-- Witness for `renderSeries_sampling` at `nts = 3`, `k = 2`. -/
theorem renderSeries_sampling_witness :
    ∃ out, renderSeries ["00:00", "01:00", "02:00"] 3 2 = .ok out ∧
      (∀ m, m ∈ out.map Series.ordinal ↔ (2 ∣ m ∧ m < 3)) ∧
      (2 = 1 → out.map Series.ordinal = List.range 3) ∧
      (1 ≤ 3 → 3 ≤ 2 → out.map Series.ordinal = [0]) :=
  renderSeries_sampling ["00:00", "01:00", "02:00"] 3 2 (by decide) (by decide)

lemma renderLoop_colors (hrs : List String) (k : Nat) (ms : List Nat) :
    ∀ (ic : Nat) (out : List Series), ic < 10 → renderLoop hrs k ms ic = .ok out →
    out.map Series.colorIdx = (List.range out.length).map (fun j => (ic + j) % 10) := by
  induction ms with
  | nil =>
    intro ic out _ hout
    obtain rfl : ([] : List Series) = out := by simpa [renderLoop] using hout
    simp
  | cons m ms ih =>
    intro ic out hic hout
    simp only [renderLoop] at hout
    by_cases hk : k = 0
    · simp [hk] at hout
    rw [if_neg hk] at hout
    by_cases hm : m % k = 0
    · rw [if_pos hm] at hout
      cases hlab : hrs[m]? with
      | none => rw [hlab] at hout; exact absurd hout (by simp)
      | some lab =>
        rw [hlab] at hout
        cases hrec : renderLoop hrs k ms (if colors.length - 1 < ic + 1 then 0 else ic + 1) with
        | error e => rw [hrec] at hout; exact absurd hout (by simp [Except.map])
        | ok rest =>
          rw [hrec] at hout
          obtain rfl : Series.mk m lab ic :: rest = out := by
            simpa [Except.map] using hout
          rw [cursor_step ic hic] at hrec
          have hic' : (ic + 1) % 10 < 10 := Nat.mod_lt _ (by omega)
          have htail := ih ((ic + 1) % 10) rest hic' hrec
          simp only [List.map_cons, List.length_cons, htail, List.range_succ_eq_map,
            List.map_map]
          refine List.cons_eq_cons.mpr ⟨by omega, ?_⟩
          refine List.map_congr_left (fun j _ => ?_)
          simp only [Function.comp]
          omega
    · rw [if_neg hm] at hout
      exact ih ic out hic hout

/-- C8: Within any one profile panel, the `j`-th rendered series is drawn
with `colors[j % 10]` — the cursor starts at palette index 0 at the start
of every panel (`renderSeries` begins each panel loop with `ic = 0`) and
wraps past the 10-entry palette, so the 11th rendered series receives the
same color as the 1st; the assignment is a function of the inputs alone. -/
theorem renderSeries_colorCycle (hrs : List String) (nts k : Nat) (out : List Series)
    (h : renderSeries hrs nts k = .ok out) :
    colors.length = 10 ∧
      out.map Series.colorIdx = (List.range out.length).map (fun j => j % 10) := by
  refine ⟨rfl, ?_⟩
  have := renderLoop_colors hrs k (List.range nts) 0 out (by omega) h
  simpa using this

/-- Witness for `renderSeries_colorCycle` on a panel with 11 rendered
series: the 11th series (index 10) gets color index `10 % 10 = 0`,
the same as the 1st. -/
theorem renderSeries_colorCycle_witness :
    colors.length = 10 ∧
      (List.range 11).map (fun j => Series.colorIdx ⟨j, "00:00", j % 10⟩) =
        (List.range 11).map (fun j => j % 10) := by
  have h := renderSeries_colorCycle (List.replicate 11 "00:00") 11 1
    ((List.range 11).map (fun j => ⟨j, "00:00", j % 10⟩)) (by decide)
  simpa using h

/-! ## The y-axis bound sentinel (C5) -/

/-- C5 (amended): the `-1` sentinel resolution holds for the species entry
point `genspc_plotprofs` — sentinel `-1` resolves the y-axis upper bound to
the last value of the vertical coordinate, an explicit bound is used
verbatim — but NOT for every profile-composing entry point:
`genvar_plotprofs1` sets `plt.ylim(-0.1, htop)` with the caller's `htop`
verbatim, sentinel included. -/
theorem ylim_sentinel_amended :
    (∀ tkfile varfile simname outfn outtype intdt zmax xmax hc z A fig,
      get1Dvar varfile = .ok (z, A) →
      genspc_plotprofs tkfile varfile simname outfn outtype intdt zmax xmax hc = .ok fig →
      ((zmax = -1 → ∃ zl, z.getLast? = some zl ∧ fig.ylim = ((-0.1 : ℚ), zl)) ∧
       (zmax ≠ -1 → fig.ylim = ((-0.1 : ℚ), zmax)))) ∧
    (∀ tkfile varfile simname outfn outtype intdt htop fig,
      genvar_plotprofs1 tkfile varfile simname outfn outtype intdt htop = .ok fig →
      fig.ylim = ((-0.1 : ℚ), htop)) := by
  constructor
  · intro tkfile varfile simname outfn outtype intdt zmax xmax hc z A fig hvf h
    simp only [genspc_plotprofs, bind, Except.bind] at h
    cases htk : timekeys tkfile with
    | error e => rw [htk] at h; exact absurd h (by simp)
    | ok tk =>
      rw [htk, hvf] at h
      dsimp only at h
      cases hrend : renderSeries tk.2 A.ncols intdt with
      | error e => rw [hrend] at h; exact absurd h (by simp)
      | ok rend =>
        rw [hrend] at h
        cases hyl : genspc_ylim z zmax with
        | error e => rw [hyl] at h; exact absurd h (by simp)
        | ok yl =>
          rw [hyl] at h
          obtain rfl : Fig1.mk rend yl
              (if xmax ≠ -1 then some ((-0.1 : ℚ), xmax) else none)
              [pltoutputPath simname outfn outtype] = fig := by
            simpa using h
          constructor
          · intro hzm
            simp only [genspc_ylim, if_pos hzm] at hyl
            cases hget : z[z.length - 1]? with
            | none => rw [hget] at hyl; exact absurd hyl (by simp)
            | some zl =>
              rw [hget] at hyl
              obtain rfl : ((-0.1 : ℚ), zl) = yl := by simpa using hyl
              exact ⟨zl, by rw [List.getLast?_eq_getElem?, hget], rfl⟩
          · intro hzm
            simp only [genspc_ylim, if_neg hzm] at hyl
            obtain rfl : ((-0.1 : ℚ), zmax) = yl := by simpa using hyl
            rfl
  · intro tkfile varfile simname outfn outtype intdt htop fig h
    simp only [genvar_plotprofs1, bind, Except.bind] at h
    cases htk : timekeys tkfile with
    | error e => rw [htk] at h; exact absurd h (by simp)
    | ok tk =>
      rw [htk] at h
      dsimp only at h
      cases hvf : get1Dvar varfile with
      | error e => rw [hvf] at h; exact absurd h (by simp)
      | ok zv =>
        rw [hvf] at h
        dsimp only at h
        cases hrend : renderSeries tk.2 zv.2.ncols intdt with
        | error e => rw [hrend] at h; exact absurd h (by simp)
        | ok rend =>
          rw [hrend] at h
          obtain rfl : Fig1.mk rend ((-0.1 : ℚ), htop) none
              [pltoutputPath simname outfn outtype] = fig := by simpa using h
          rfl

/-- Witness for `ylim_sentinel_amended`: a concrete run of each entry
point — `genspc_plotprofs` with sentinel `zmax = -1` resolves the upper
bound to the last coordinate 10, and `genvar_plotprofs1` with an explicit
`htop = 7` keeps it verbatim. -/
theorem ylim_sentinel_amended_witness :
    (∃ zl, ([(5 : ℚ), 10] : List ℚ).getLast? = some zl ∧
      ((-0.1 : ℚ), (10 : ℚ)).1 = (-0.1 : ℚ) ∧ zl = 10) ∧
    ((Fig1.mk [⟨0, "00:00", 0⟩] ((-0.1 : ℚ), 7) none ["img/s_o.pdf"]).ylim
      = ((-0.1 : ℚ), (7 : ℚ))) := by
  have hspc := (ylim_sentinel_amended.1
    (some [["i", "d", "t"], ["1", "2020-01-01", "00:00:00"]])
    (some [["z", "t1"], ["5.0", "1.0"], ["10.0", "2.0"]])
    "s" "o" "pdf" 1 (-1) (-1) (5 : ℚ) [(5 : ℚ), 10] ⟨1, [[1], [2]]⟩
    ⟨[⟨0, "00:00", 0⟩], ((-0.1 : ℚ), 10), none, ["img/s_o.pdf"]⟩
    (by with_unfolding_all decide) (by with_unfolding_all decide)).1 rfl
  have hvar := ylim_sentinel_amended.2
    (some [["i", "d", "t"], ["1", "2020-01-01", "00:00:00"]])
    (some [["z", "t1"], ["5.0", "1.0"], ["10.0", "2.0"]])
    "s" "o" "pdf" 1 (7 : ℚ)
    ⟨[⟨0, "00:00", 0⟩], ((-0.1 : ℚ), 7), none, ["img/s_o.pdf"]⟩
    (by with_unfolding_all decide)
  obtain ⟨zl, hzl, hy⟩ := hspc
  refine ⟨⟨zl, hzl, rfl, ?_⟩, hvar⟩
  have : some zl = some (10 : ℚ) := by rw [← hzl]; rfl
  simpa using this

/-- C5 (counterexample to the claim as stated): for the entry point
`plotprofs1` of genvar.py with the y-bound sentinel `htop = -1` and
vertical coordinate `[5, 10]`, the resolved y-axis upper bound is the
sentinel `-1` itself, not the last coordinate value 10. -/
theorem ylim_sentinel_counterexample :
    genvar_plotprofs1
        (some [["i", "d", "t"], ["1", "2020-01-01", "00:00:00"]])
        (some [["z", "t1"], ["5.0", "1.0"], ["10.0", "2.0"]])
        "s" "o" "pdf" 1 (-1)
      = .ok ⟨[⟨0, "00:00", 0⟩], ((-0.1 : ℚ), -1), none, ["img/s_o.pdf"]⟩ ∧
    get1Dvar (some [["z", "t1"], ["5.0", "1.0"], ["10.0", "2.0"]])
      = .ok ([(5 : ℚ), 10], ⟨1, [[1], [2]]⟩) ∧
    ([(5 : ℚ), 10] : List ℚ).getLast? = some 10 ∧
    ((-1 : ℚ)) ≠ 10 := by
  refine ⟨?_, ?_, ?_, ?_⟩ <;> with_unfolding_all decide

/-! ## The unbound names in rxns.py and pltutils.py (C9, C10) -/

/-- C9: whenever the time-key and reaction-table reads succeed (and the
panel loop can run, i.e. the TimeIndex covers the table and a nonempty
coordinate backs a `-1` `zmax` sentinel), `plotprofs` of rxns.py reaches
`plt.xlabel(spcname+"-"+varunits)` and raises `NameError` on the unbound
name `spcname`; the run therefore ends in an error and `pltoutput` never
emits a figure or file. -/
theorem rxns_plotprofs_nameError (tkfile varfile : Option (List (List String)))
    (simname dirname : String) (rxnnum : Nat) (outtype : String) (intdt : Nat)
    (zmax xmax hc : ℚ) (tk : List DT × List String) (zv : List ℚ × NpMat)
    (rend : List Series)
    (htk : timekeys tkfile = .ok tk)
    (hvf : get1Dvar varfile = .ok zv)
    (hrend : renderSeries tk.2 zv.2.ncols intdt = .ok rend)
    (hz : zmax = -1 → zv.1 ≠ []) :
    rxns_plotprofs tkfile varfile simname dirname rxnnum outtype intdt zmax xmax hc
      = .error .nameError := by
  have hload : loadName rxnsLocals rxnsGlobals "spcname" = .error .nameError := by decide
  simp only [rxns_plotprofs, bind, Except.bind, htk, hvf, hrend]
  by_cases hzm : zmax = -1
  · have hne := hz hzm
    have hlen : 0 < zv.1.length := List.length_pos.mpr hne
    cases hget : zv.1[zv.1.length - 1]? with
    | none =>
      rw [List.getElem?_eq_getElem (by omega)] at hget
      exact absurd hget (by simp)
    | some zl => simp [hzm, hget, hload]
  · simp [hzm, hload]

/-- Witness for `rxns_plotprofs_nameError` on a concrete one-step run. -/
theorem rxns_plotprofs_nameError_witness :
    rxns_plotprofs
        (some [["i", "d", "t"], ["1", "2020-01-01", "00:00:00"]])
        (some [["z", "t1"], ["5.0", "1.0"]])
        "s" "rates" 7 "pdf" 1 (10 : ℚ) (-1) (5 : ℚ)
      = .error .nameError :=
  rxns_plotprofs_nameError _ _ "s" "rates" 7 "pdf" 1 (10 : ℚ) (-1) (5 : ℚ)
    ([⟨2020, 1, 1, 0, 0, 0⟩], ["00:00"]) ([(5 : ℚ)], ⟨1, [[1]]⟩)
    [⟨0, "00:00", 0⟩]
    (by decide) (by with_unfolding_all decide) (by decide)
    (fun h => absurd h (by with_unfolding_all decide))

/-- C10: `getspunits` never returns normally on an existing
`ACCESS_ppbv.dat` file: with data rows the loop's `ppbvs.append(data[1])`
loads the unbound name `ppbvs`, and without data rows `return ppbvs` does —
either way the call raises `NameError`. -/
theorem getspunits_always_nameError (lines : List (List String)) :
    getspunits (some lines) = .error .nameError := by
  have hload : loadName getspunitsLocals pltutilsGlobals "ppbvs" = .error .nameError := by
    decide
  cases hrest : lines.drop 1 with
  | nil => simp [getspunits, hrest, hload, bind, Except.bind, pure, Except.pure]
  | cons d ds =>
    simp [getspunits, hrest, hload, bind, Except.bind, pure, Except.pure, List.foldlM_cons]

/-! ## TimeKeyReader failure modes (C3) -/

lemma getElem?_eq_some_getD {α : Type} (l : List α) (i : Nat) (d : α)
    (h : i < l.length) : l[i]? = some (l.getD i d) := by
  rw [List.getD_eq_getElem?_getD, List.getElem?_eq_getElem h]
  rfl

lemma tkRow_err_of_bad (row : List String)
    (hbad : row.length < 3 ∨
      strptime17 ((row.getD 1 "") ++ " " ++ (row.getD 2 "")) = none) :
    ∃ e, tkRow row = .error e ∧ (e = PyErr.indexError ∨ e = PyErr.valueError) := by
  by_cases h3 : row.length < 3
  · rcases Nat.lt_or_ge row.length 2 with h2 | h2
    · have h1 : row[1]? = none := List.getElem?_eq_none (by omega)
      exact ⟨.indexError, by unfold tkRow; rw [h1], Or.inl rfl⟩
    · have h1 : row[1]? = some (row.getD 1 "") := getElem?_eq_some_getD row 1 "" (by omega)
      have h2n : row[2]? = none := List.getElem?_eq_none (by omega)
      exact ⟨.indexError, by unfold tkRow; rw [h1, h2n], Or.inl rfl⟩
  · have hp := hbad.resolve_left h3
    have h1 : row[1]? = some (row.getD 1 "") := getElem?_eq_some_getD row 1 "" (by omega)
    have h2 : row[2]? = some (row.getD 2 "") := getElem?_eq_some_getD row 2 "" (by omega)
    exact ⟨.valueError, by unfold tkRow; rw [h1, h2]; dsimp only; rw [hp], Or.inr rfl⟩

lemma tkRow_ok_of_good (row : List String)
    (hgood : ¬(row.length < 3 ∨
      strptime17 ((row.getD 1 "") ++ " " ++ (row.getD 2 "")) = none)) :
    ∃ p, tkRow row = .ok p := by
  push_neg at hgood
  obtain ⟨h3, hp⟩ := hgood
  obtain ⟨t, ht⟩ := Option.ne_none_iff_exists.mp hp
  have h1 : row[1]? = some (row.getD 1 "") := getElem?_eq_some_getD row 1 "" (by omega)
  have h2 : row[2]? = some (row.getD 2 "") := getElem?_eq_some_getD row 2 "" (by omega)
  refine ⟨(t, (row.getD 2 "").take 5), ?_⟩
  unfold tkRow
  rw [h1, h2]
  dsimp only
  rw [← ht]

lemma tkRows_err (rs : List (List String))
    (hbad : ∃ row ∈ rs, row.length < 3 ∨
      strptime17 ((row.getD 1 "") ++ " " ++ (row.getD 2 "")) = none) :
    ∃ e, tkRows rs = .error e ∧ (e = PyErr.indexError ∨ e = PyErr.valueError) := by
  induction rs with
  | nil => simp at hbad
  | cons r rs ih =>
    by_cases hr : r.length < 3 ∨ strptime17 ((r.getD 1 "") ++ " " ++ (r.getD 2 "")) = none
    · obtain ⟨e, he, hk⟩ := tkRow_err_of_bad r hr
      exact ⟨e, by simp [tkRows, he, bind, Except.bind], hk⟩
    · obtain ⟨row, hmem, hb⟩ := hbad
      rcases List.mem_cons.mp hmem with rfl | hmem'
      · exact absurd hb hr
      · obtain ⟨p, hp⟩ := tkRow_ok_of_good r hr
        obtain ⟨e, he, hk⟩ := ih ⟨row, hmem', hb⟩
        exact ⟨e, by simp [tkRows, hp, he, bind, Except.bind], hk⟩

/-- C3: `timekeys` fails with `FileNotFoundError` (the spec's
`MissingFileError`) when the time-key file does not exist, and — via
`IndexError` on the missing token or `ValueError` from `strptime`
(together, the spec's `MalformedRowError`) — whenever any non-header line
has fewer than 3 whitespace-delimited tokens or its date/time fields do
not parse as the fixed `YYYY-MM-DD HH:MM:SS` pattern. -/
theorem timekeys_failure_modes :
    timekeys none = .error .fileNotFound ∧
    ∀ lines : List (List String),
      (∃ row ∈ lines.drop 1, row.length < 3 ∨
        strptime17 ((row.getD 1 "") ++ " " ++ (row.getD 2 "")) = none) →
      ∃ e, timekeys (some lines) = .error e ∧
        (e = PyErr.indexError ∨ e = PyErr.valueError) := by
  refine ⟨rfl, fun lines hbad => ?_⟩
  obtain ⟨e, he, hk⟩ := tkRows_err (lines.drop 1) hbad
  rw [List.drop_one] at he
  exact ⟨e, by simp [timekeys, he, Except.map], hk⟩

/-- Witness for `timekeys_failure_modes`: a row whose date has month 13
fails `strptime`, so the read errors. -/
theorem timekeys_failure_modes_witness :
    ∃ e, timekeys (some [["i", "date", "time"], ["1", "2020-13-01", "00:00:00"]])
        = .error e ∧ (e = PyErr.indexError ∨ e = PyErr.valueError) :=
  timekeys_failure_modes.2 [["i", "date", "time"], ["1", "2020-13-01", "00:00:00"]]
    ⟨["1", "2020-13-01", "00:00:00"], by decide, Or.inr (by decide)⟩

/-! ## TableReader row-width behavior (C2) -/

lemma fillRow_pad : ∀ (ts : List String) (pre suf : List ℚ),
    (∀ t ∈ ts, (pyFloat t).isSome) → ts.length ≤ suf.length →
    fillRow (pre.length + suf.length) ts pre.length (pre ++ suf)
      = .ok (pre ++ ts.map (fun t => (pyFloat t).getD 0) ++ suf.drop ts.length) := by
  intro ts
  induction ts with
  | nil =>
    intro pre suf _ _
    simp [fillRow]
  | cons t ts ih =>
    intro pre suf hparse hlen
    obtain ⟨q, hq⟩ := Option.isSome_iff_exists.mp (hparse t (by simp))
    cases suf with
    | nil => simp at hlen
    | cons s0 suf =>
      have hset : (pre ++ s0 :: suf).set pre.length q = pre ++ q :: suf := by
        rw [List.set_append_right _ _ (le_refl _)]
        simp
      simp only [fillRow, hq, hset]
      rw [if_neg (by simp)]
      have harith : pre.length + (s0 :: suf).length = (pre ++ [q]).length + suf.length := by
        simp
        omega
      have happ : pre ++ q :: suf = (pre ++ [q]) ++ suf := by simp
      have hlen1 : pre.length + 1 = (pre ++ [q]).length := by simp
      rw [harith, happ, hlen1,
        ih (pre ++ [q]) suf (fun x hx => hparse x (by simp [hx])) (by simp at hlen ⊢; omega)]
      simp [hq]

lemma fillRow_excess (nts : Nat) : ∀ (ts : List String) (m : Nat) (arr : List ℚ),
    nts < m + ts.length → m ≤ nts → ∃ e, fillRow nts ts m arr = .error e := by
  intro ts
  induction ts with
  | nil =>
    intro m arr h1 h2
    simp at h1
    omega
  | cons t ts ih =>
    intro m arr h1 h2
    cases hq : pyFloat t with
    | none => exact ⟨.valueError, by simp [fillRow, hq]⟩
    | some q =>
      by_cases hm : nts ≤ m
      · exact ⟨.indexError, by simp [fillRow, hq, if_pos hm]⟩
      · obtain ⟨e, he⟩ := ih (m + 1) (arr.set m q) (by simp at h1 ⊢; omega) (by omega)
        exact ⟨e, by simp [fillRow, hq, if_neg hm, he]⟩

lemma parseRow_pad (nts : Nat) (d0 : String) (rest : List String) (q : ℚ)
    (hq : pyFloat d0 = some q) (hparse : ∀ t ∈ rest, (pyFloat t).isSome)
    (hlen : rest.length ≤ nts) :
    parseRow nts (d0 :: rest)
      = .ok (q, rest.map (fun t => (pyFloat t).getD 0)
          ++ List.replicate (nts - rest.length) 0) := by
  have hfill := fillRow_pad rest [] (List.replicate nts 0) hparse (by simpa using hlen)
  simp only [List.nil_append, List.length_nil, List.length_replicate, Nat.zero_add] at hfill
  simp [parseRow, hq, hfill, List.drop_replicate, Except.map]

lemma parseRow_excess (nts : Nat) (r : List String) (hlen : nts < r.length - 1) :
    ∃ e, parseRow nts r = .error e := by
  cases r with
  | nil => simp at hlen
  | cons d0 rest =>
    cases hq : pyFloat d0 with
    | none => exact ⟨.valueError, by simp [parseRow, hq]⟩
    | some q =>
      obtain ⟨e, he⟩ := fillRow_excess nts rest 0 (List.replicate nts 0)
        (by simp at hlen ⊢; omega) (by omega)
      exact ⟨e, by simp [parseRow, hq, he, Except.map]⟩

lemma parseRows_pad (nts : Nat) : ∀ rows : List (List String),
    (∀ r ∈ rows, r ≠ [] ∧ (∀ t ∈ r, (pyFloat t).isSome) ∧ r.length - 1 ≤ nts) →
    parseRows nts rows
      = .ok (rows.map (fun r => ((pyFloat (r.getD 0 "")).getD 0,
          (r.drop 1).map (fun t => (pyFloat t).getD 0)
            ++ List.replicate (nts - (r.length - 1)) 0))) := by
  intro rows
  induction rows with
  | nil => intro _; rfl
  | cons r rows ih =>
    intro hyp
    obtain ⟨hne, hparse, hlen⟩ := hyp r (by simp)
    cases r with
    | nil => exact absurd rfl hne
    | cons d0 rest =>
      obtain ⟨q, hq⟩ := Option.isSome_iff_exists.mp (hparse d0 (by simp))
      have hrow := parseRow_pad nts d0 rest q hq
        (fun t ht => hparse t (by simp [ht])) (by simpa using hlen)
      have hrest := ih (fun r hr => hyp r (by simp [hr]))
      simp [parseRows, hrow, hrest, bind, Except.bind, hq]

lemma parseRows_excess (nts : Nat) : ∀ rows : List (List String),
    (∃ r ∈ rows, nts < r.length - 1) → ∃ e, parseRows nts rows = .error e := by
  intro rows
  induction rows with
  | nil => intro h; simp at h
  | cons r rows ih =>
    intro hbad
    by_cases hr : nts < r.length - 1
    · obtain ⟨e, he⟩ := parseRow_excess nts r hr
      exact ⟨e, by simp [parseRows, he, bind, Except.bind]⟩
    · obtain ⟨row, hmem, hb⟩ := hbad
      rcases List.mem_cons.mp hmem with rfl | hmem'
      · exact absurd hb hr
      · cases hpr : parseRow nts r with
        | error e => exact ⟨e, by simp [parseRows, hpr, bind, Except.bind]⟩
        | ok p =>
          obtain ⟨e, he⟩ := ih ⟨row, hmem', hb⟩
          exact ⟨e, by simp [parseRows, hpr, he, bind, Except.bind]⟩

/-- C2 (amended): there is no `ShapeMismatchError`.  When some data row
carries more data tokens than the header-declared time width
(`header.length - 1`), `get1Dvar` does fail — with `IndexError` from the
out-of-bounds numpy assignment, or `ValueError` if a non-numeric token is
hit first — but a row with fewer data tokens than declared is accepted
silently: the missing entries remain the zeros of the preallocated numpy
row. -/
theorem get1Dvar_row_width_amended (header : List String) (rows : List (List String)) :
    ((∃ r ∈ rows, header.length - 1 < r.length - 1) →
      ∃ e, get1Dvar (some (header :: rows)) = .error e) ∧
    ((∀ r ∈ rows, r ≠ [] ∧ (∀ t ∈ r, (pyFloat t).isSome) ∧
        r.length - 1 ≤ header.length - 1) →
      get1Dvar (some (header :: rows))
        = .ok (rows.map (fun r => (pyFloat (r.getD 0 "")).getD 0),
            ⟨header.length - 1,
             rows.map (fun r => (r.drop 1).map (fun t => (pyFloat t).getD 0)
               ++ List.replicate ((header.length - 1) - (r.length - 1)) 0)⟩)) := by
  constructor
  · intro hbad
    obtain ⟨e, he⟩ := parseRows_excess (header.length - 1) rows hbad
    exact ⟨e, by simp [get1Dvar, he, Except.map]⟩
  · intro hyp
    have hok := parseRows_pad (header.length - 1) rows hyp
    simp [get1Dvar, hok, Except.map, List.map_map]

/-- Witness for `get1Dvar_row_width_amended`: with a header declaring two
time columns, a row with three data tokens fails, and a row with one data
token is zero-padded and accepted. -/
theorem get1Dvar_row_width_amended_witness :
    (∃ e, get1Dvar (some [["z", "t1", "t2"], ["1.0", "5.0", "6.0", "7.0"]]) = .error e) ∧
    get1Dvar (some [["z", "t1", "t2"], ["1.0", "5.0"]])
      = .ok ([["1.0", "5.0"]].map (fun r => (pyFloat (r.getD 0 "")).getD 0),
          ⟨2, [["1.0", "5.0"]].map (fun r => (r.drop 1).map (fun t => (pyFloat t).getD 0)
            ++ List.replicate (2 - (r.length - 1)) 0)⟩) :=
  ⟨(get1Dvar_row_width_amended ["z", "t1", "t2"] [["1.0", "5.0", "6.0", "7.0"]]).1
    ⟨["1.0", "5.0", "6.0", "7.0"], by decide, by decide⟩,
   (get1Dvar_row_width_amended ["z", "t1", "t2"] [["1.0", "5.0"]]).2
    (by intro r hr
        obtain rfl : r = ["1.0", "5.0"] := by simpa using hr
        exact ⟨by decide, by with_unfolding_all decide, by decide⟩)⟩

/-- C2 (counterexample to the claim as stated): a profile file whose
header declares two time columns but whose data row provides only one is
read without any error — the missing entry is silently zero-filled, so no
`ShapeMismatchError` (nor any other exception) is raised. -/
theorem get1Dvar_no_shape_error_counterexample :
    get1Dvar (some [["z", "t1", "t2"], ["1.0", "5.0"]]) = .ok ([1], ⟨2, [[5, 0]]⟩) := by
  with_unfolding_all decide

/-! ## The dashboard radiation window (C4) -/

lemma tenth_eq (m : ℚ) : (1 / 10 : ℚ) * m = m / 10 := by ring

lemma radSel_eq : ∀ (clai rs : List ℚ), rs.length = clai.length →
    (clai.zip rs).filter (fun p => decide (0 < p.1))
      = ((List.range clai.length).filter (fun i => decide (0 < clai.getD i 0))).map
          (fun i => (clai.getD i 0, rs.getD i 0)) := by
  intro clai
  induction clai with
  | nil =>
    intro rs h
    simp
  | cons c cl ih =>
    intro rs h
    cases rs with
    | nil => simp at h
    | cons r rl =>
      have hlen : rl.length = cl.length := by simpa using h
      have htail := ih rl hlen
      simp only [List.zip_cons_cons, List.filter_cons, List.length_cons,
        List.range_succ_eq_map, List.getD_cons_zero, List.getD_cons_succ,
        List.filter_map, List.map_map, Function.comp, htail]
      have hfe : List.filter ((fun i => decide (0 < (c :: cl).getD i 0)) ∘ Nat.succ)
            (List.range cl.length)
          = List.filter (fun i => decide (0 < cl.getD i 0)) (List.range cl.length) :=
        List.filter_congr (fun i _ => by simp)
      have hme : List.map ((fun i => ((c :: cl).getD i 0, (r :: rl).getD i 0)) ∘ Nat.succ)
            (List.filter (fun i => decide (0 < cl.getD i 0)) (List.range cl.length))
          = List.map (fun i => (cl.getD i 0, rl.getD i 0))
            (List.filter (fun i => decide (0 < cl.getD i 0)) (List.range cl.length)) :=
        List.map_congr_left (fun i _ => by simp)
      by_cases hc : 0 < c
      · simp only [hc]
        rw [if_pos (by decide), if_pos (by decide), hfe, List.map_cons, List.map_map, hme]
        simp
      · simp only [hc]
        rw [if_neg (by decide), if_neg (by decide), hfe, List.map_map, hme]

lemma getD_zipWith_add (as bs : List ℚ) (i : Nat) (hia : i < as.length)
    (hib : i < bs.length) :
    (List.zipWith (fun a b => a + b) as bs).getD i 0 = as.getD i 0 + bs.getD i 0 := by
  have hiz : i < (List.zipWith (fun a b => a + b) as bs).length := by
    simp [hia, hib]
  rw [List.getD_eq_getElem?_getD, List.getD_eq_getElem?_getD, List.getD_eq_getElem?_getD,
    List.getElem?_eq_getElem hiz, List.getElem?_eq_getElem hia, List.getElem?_eq_getElem hib]
  simp

/-- C4: the absorbed-radiation panel of the dashboard windows its x-axis
to `mean ± max(50, mean/10)` where `mean` averages, over exactly the rows
whose cumulative leaf area is strictly positive, half the sum of sunlit
and shaded absorbed radiation; rows with zero (or negative) cumulative
leaf area contribute nothing. -/
theorem pall1t_radWindow_spec (rasun rashd clai : List ℚ)
    (h1 : rasun.length = clai.length) (h2 : rashd.length = clai.length)
    (hpos : ∃ i, i < clai.length ∧ 0 < clai.getD i 0) :
    ∃ m : ℚ,
      m = ((((List.range clai.length).filter (fun i => decide (0 < clai.getD i 0))).map
              (fun i => (rasun.getD i 0 + rashd.getD i 0) / 2)).sum) /
          ((((List.range clai.length).filter
              (fun i => decide (0 < clai.getD i 0))).length : ℚ)) ∧
      pall1t_radWindow rasun rashd clai = (m - max 50 (m / 10), m + max 50 (m / 10)) := by
  have hrs : (List.zipWith (fun a b => a + b) rasun rashd).length = clai.length := by
    simp [h1, h2]
  have hsel := radSel_eq clai (List.zipWith (fun a b => a + b) rasun rashd) hrs
  have hmapcong :
      ((List.range clai.length).filter (fun i => decide (0 < clai.getD i 0))).map
          (fun i => (0.5 : ℚ) *
            (List.zipWith (fun a b => a + b) rasun rashd).getD i 0)
        = ((List.range clai.length).filter (fun i => decide (0 < clai.getD i 0))).map
            (fun i => (rasun.getD i 0 + rashd.getD i 0) / 2) := by
    refine List.map_congr_left (fun i hi => ?_)
    have hilt : i < clai.length := List.mem_range.mp (List.mem_filter.mp hi).1
    rw [getD_zipWith_add rasun rashd i (by omega) (by omega)]
    have h05 : (0.5 : ℚ) = 1 / 2 := by norm_num
    rw [h05]
    ring
  have hcard : 0 <
      ((List.range clai.length).filter (fun i => decide (0 < clai.getD i 0))).length := by
    obtain ⟨i, hilt, hipos⟩ := hpos
    have : i ∈ (List.range clai.length).filter (fun i => decide (0 < clai.getD i 0)) :=
      List.mem_filter.mpr ⟨List.mem_range.mpr hilt, by simpa using hipos⟩
    exact List.length_pos.mpr (List.ne_nil_of_mem this)
  refine ⟨_, rfl, ?_⟩
  have h01 : (0.1 : ℚ) = 1 / 10 := by norm_num
  simp only [pall1t_radWindow, hsel, List.map_map, List.length_map]
  rw [if_pos hcard]
  have hsum :
      (((List.range clai.length).filter (fun i => decide (0 < clai.getD i 0))).map
        ((fun p : ℚ × ℚ => (0.5 : ℚ) * p.2) ∘ fun i =>
          (clai.getD i 0, (List.zipWith (fun a b => a + b) rasun rashd).getD i 0))).sum
      = ((((List.range clai.length).filter (fun i => decide (0 < clai.getD i 0))).map
          (fun i => (rasun.getD i 0 + rashd.getD i 0) / 2)).sum) := by
    rw [← hmapcong]
    rfl
  rw [hsum, h01, tenth_eq]

/-- Witness for `pall1t_radWindow_spec`, the spec's own scenario: leaf
areas `[0, 0, 2, 3]` and sunlit+shaded sums `[100, 100, 200, 300]` — only
the two positive-leaf-area rows enter the mean. -/
theorem pall1t_radWindow_spec_witness :
    ∃ m : ℚ,
      m = ((((List.range ([(0 : ℚ), 0, 2, 3] : List ℚ).length).filter
              (fun i => decide (0 < ([(0 : ℚ), 0, 2, 3] : List ℚ).getD i 0))).map
              (fun i => (([(50 : ℚ), 50, 100, 150] : List ℚ).getD i 0
                + ([(50 : ℚ), 50, 100, 150] : List ℚ).getD i 0) / 2)).sum) /
          ((((List.range ([(0 : ℚ), 0, 2, 3] : List ℚ).length).filter
              (fun i => decide (0 < ([(0 : ℚ), 0, 2, 3] : List ℚ).getD i 0))).length : ℚ)) ∧
      pall1t_radWindow [(50 : ℚ), 50, 100, 150] [(50 : ℚ), 50, 100, 150]
          [(0 : ℚ), 0, 2, 3]
        = (m - max 50 (m / 10), m + max 50 (m / 10)) :=
  pall1t_radWindow_spec [(50 : ℚ), 50, 100, 150] [(50 : ℚ), 50, 100, 150]
    [(0 : ℚ), 0, 2, 3] (by decide) (by decide)
    ⟨2, by decide, by with_unfolding_all decide⟩

/-! ## The dashboard temperature window (C7) -/

lemma min?_spec (l : List ℚ) (m : ℚ) (h : l.min? = some m) :
    m ∈ l ∧ ∀ x ∈ l, m ≤ x := by
  have anti : Std.Antisymm (fun x1 x2 : ℚ => x1 ≤ x2) :=
    ⟨fun hab hba => le_antisymm hab hba⟩
  exact (@List.min?_eq_some_iff ℚ m _ _ anti (fun a => le_refl a)
    (fun a b => min_choice a b) (fun _ _ _ => le_min_iff)).mp h

lemma max?_spec (l : List ℚ) (m : ℚ) (h : l.max? = some m) :
    m ∈ l ∧ ∀ x ∈ l, x ≤ m := by
  have anti : Std.Antisymm (fun x1 x2 : ℚ => x1 ≤ x2) :=
    ⟨fun hab hba => le_antisymm hab hba⟩
  exact (@List.max?_eq_some_iff ℚ m _ _ anti (fun a => le_refl a)
    (fun a b => max_choice a b) (fun _ _ _ => max_le_iff)).mp h

lemma min?_exists (l : List ℚ) (h : l ≠ []) : ∃ m, l.min? = some m := by
  cases l with
  | nil => exact absurd rfl h
  | cons a as => exact ⟨_, List.min?_cons⟩

lemma max?_exists (l : List ℚ) (h : l ≠ []) : ∃ m, l.max? = some m := by
  cases l with
  | nil => exact absurd rfl h
  | cons a as => exact ⟨_, List.max?_cons⟩

/-- C7: the dashboard temperature panel resolves its x-axis to
`[min(tair) - d, max(tair) + d]` with `d = max(5, peak |tlsun - tlshd|)`,
all three temperature profiles having been converted from Kelvin to
Celsius by subtracting 273.15 — `lo`/`hi` are the least/greatest converted
air temperatures and `dm` the peak absolute sunlit-vs-shaded leaf
temperature difference. -/
theorem pall1t_tempWindow_spec (atairCol atlsunCol atlshdCol : List ℚ)
    (ha : atairCol ≠ []) (hsun : atlsunCol ≠ [])
    (hlen : atlsunCol.length = atlshdCol.length) :
    ∃ lo hi dm,
      pall1t_tempWindow atairCol atlsunCol atlshdCol
        = .ok (lo - max 5 dm, hi + max 5 dm) ∧
      (lo ∈ atairCol.map (fun x => x - (273.15 : ℚ)) ∧
        ∀ x ∈ atairCol.map (fun x => x - (273.15 : ℚ)), lo ≤ x) ∧
      (hi ∈ atairCol.map (fun x => x - (273.15 : ℚ)) ∧
        ∀ x ∈ atairCol.map (fun x => x - (273.15 : ℚ)), x ≤ hi) ∧
      (dm ∈ (List.zipWith (fun a b => a - b)
            (atlsunCol.map (fun x => x - (273.15 : ℚ)))
            (atlshdCol.map (fun x => x - (273.15 : ℚ)))).map (fun x => |x|) ∧
        ∀ x ∈ (List.zipWith (fun a b => a - b)
            (atlsunCol.map (fun x => x - (273.15 : ℚ)))
            (atlshdCol.map (fun x => x - (273.15 : ℚ)))).map (fun x => |x|), x ≤ dm) := by
  have hta : atairCol.map (fun x => x - (273.15 : ℚ)) ≠ [] := by
    simpa using ha
  obtain ⟨lo, hlo⟩ := min?_exists _ hta
  obtain ⟨hi, hhi⟩ := max?_exists _ hta
  have hdne : (List.zipWith (fun a b => a - b)
      (atlsunCol.map (fun x => x - (273.15 : ℚ)))
      (atlshdCol.map (fun x => x - (273.15 : ℚ)))).map (fun x => |x|) ≠ [] := by
    have hz : (List.zipWith (fun a b => a - b)
        (atlsunCol.map (fun x => x - (273.15 : ℚ)))
        (atlshdCol.map (fun x => x - (273.15 : ℚ)))).length = atlsunCol.length := by
      simp [hlen]
    intro hcon
    have hlen0 := congrArg List.length hcon
    simp [hz] at hlen0
    rcases hlen0 with h | h
    · exact hsun h
    · refine hsun (List.length_eq_zero.mp ?_)
      rw [hlen, h]
      rfl
  obtain ⟨dm, hdm⟩ := max?_exists _ hdne
  refine ⟨lo, hi, dm, ?_, min?_spec _ lo hlo, max?_spec _ hi hhi, max?_spec _ dm hdm⟩
  simp only [pall1t_tempWindow, pyMin, pyMax, hlo, hhi, hdm, bind, Except.bind]

/-- Witness for `pall1t_tempWindow_spec`, the spec's own scenario: air
temperatures spanning 10–20 °C and a peak leaf-temperature difference of
8 °C (8 > 5), giving the window `[10-8, 20+8]`. -/
theorem pall1t_tempWindow_spec_witness :
    ∃ lo hi dm,
      pall1t_tempWindow [(283.15 : ℚ), 293.15] [(301.15 : ℚ)] [(293.15 : ℚ)]
        = .ok (lo - max 5 dm, hi + max 5 dm) ∧
      (lo ∈ ([(283.15 : ℚ), 293.15] : List ℚ).map (fun x => x - (273.15 : ℚ)) ∧
        ∀ x ∈ ([(283.15 : ℚ), 293.15] : List ℚ).map (fun x => x - (273.15 : ℚ)), lo ≤ x) ∧
      (hi ∈ ([(283.15 : ℚ), 293.15] : List ℚ).map (fun x => x - (273.15 : ℚ)) ∧
        ∀ x ∈ ([(283.15 : ℚ), 293.15] : List ℚ).map (fun x => x - (273.15 : ℚ)), x ≤ hi) ∧
      (dm ∈ (List.zipWith (fun a b => a - b)
            (([(301.15 : ℚ)] : List ℚ).map (fun x => x - (273.15 : ℚ)))
            (([(293.15 : ℚ)] : List ℚ).map (fun x => x - (273.15 : ℚ)))).map (fun x => |x|) ∧
        ∀ x ∈ (List.zipWith (fun a b => a - b)
            (([(301.15 : ℚ)] : List ℚ).map (fun x => x - (273.15 : ℚ)))
            (([(293.15 : ℚ)] : List ℚ).map (fun x => x - (273.15 : ℚ)))).map (fun x => |x|),
          x ≤ dm) :=
  pall1t_tempWindow_spec [(283.15 : ℚ), 293.15] [(301.15 : ℚ)] [(293.15 : ℚ)]
    (by simp) (by simp) (by simp)

/-! ## The dashboard title off-by-one (C1) -/

/-- C1 (evaluated at the failing input): with two time steps and the
1-based `tslice = 1`, every dashboard panel plots column
`tslice - 1 = 0` — the data of time-step ordinal 0 — while the shared
figure title `simname+" - "+datetimes[tslice]` shows the timestamp of
ordinal 1, not the timestamp of the plotted slice; and for a run with one
time step, the valid `tslice = 1` makes the title lookup raise
`IndexError`.  The claim's "timestamp at time-step ordinal t−1" does not
hold. -/
theorem pall1t_title_off_by_one :
    pall1t_sliceCol ⟨2, [[10, 20]]⟩ 1 = .ok [10] ∧
    pall1t_suptitle "sim" [⟨2020, 1, 1, 0, 0, 0⟩, ⟨2020, 1, 1, 1, 0, 0⟩] 1
      = .ok ("sim" ++ " - " ++ strftime17 ⟨2020, 1, 1, 1, 0, 0⟩) ∧
    pall1t_suptitle "sim" [⟨2020, 1, 1, 0, 0, 0⟩, ⟨2020, 1, 1, 1, 0, 0⟩] 1
      ≠ .ok ("sim" ++ " - " ++ strftime17 ⟨2020, 1, 1, 0, 0, 0⟩) ∧
    pall1t_suptitle "sim" [⟨2020, 1, 1, 0, 0, 0⟩] 1 = .error .indexError := by
  refine ⟨?_, ?_, ?_, ?_⟩ <;> with_unfolding_all decide

end LibAccess
